import Mathlib

/-!
# Verification of the citation-check reference-resolution pipeline

A shallow embedding, in Lean 4, of the core logic of the citation-checking
application (files `app.py`, `modules/api_clients.py`, `modules/parsers.py`):

* the title normalizer `refine_parsed_data` (app.py),
* the match evaluator `_is_match` / `_check_author_match` together with the
  `clean_title` normalization (modules/parsers.py) and a faithful functional
  model of Python's `difflib.SequenceMatcher` quick-ratio-free `ratio()`,
* the source connectors of `modules/api_clients.py`, with their HTTP calls
  modelled by explicit "world" oracles that enumerate every outcome a call
  can have (success, non-success status, raised exception),
* the per-reference orchestrator `check_single_task` (app.py) together with
  an invocation trace of the connectors it calls, and
* the batch dispatch / collect / sort-by-id loop of app.py.

Machine-level conventions used throughout:

* Python strings are modelled as `String`/`List Char`; all inputs in the
  concrete theorems are ASCII, where `unicodedata.normalize("NFKC", ·)` is
  the identity and `str.lower` agrees with `Char.toLower`.
* Python `None` is modelled by `Option.none`; Python truthiness of strings
  (`if s:`) by `pyTruthyO`.
* A Python float threshold comparison `x >= a/b` on a ratio `2*M/T` of small
  naturals is modelled by the exact rational comparison `b*(2*M) ≥ a*T`;
  for the string lengths arising here the two are equal, because the gap
  between `2M/T` and the threshold is far larger than the double-precision
  rounding error.
* Code that can raise is written in the `Except Unit` monad; `try/except`
  becomes a `match` on the `Except` value.
-/

/-- Python `str.isspace` characters relevant here (the ASCII whitespace class
matched by `\s` and stripped by `str.strip()`). -/
def isPySpace (c : Char) : Bool :=
  c = ' ' || c = '\t' || c = '\n' || c = '\x0b' || c = '\x0c' || c = '\r'

/-- Drop characters satisfying `p` from both ends of a character list
(Python `str.strip(chars)` semantics). -/
def pyStripBothWith (p : Char → Bool) (l : List Char) : List Char :=
  ((l.dropWhile p).reverse.dropWhile p).reverse

/-- Python `s.strip()` (whitespace from both ends). -/
def pyStrip (s : String) : String :=
  ⟨pyStripBothWith isPySpace s.data⟩

/-- Python `s.strip(cs)` for an explicit character set `cs`. -/
def pyStripSet (cs : List Char) (s : String) : String :=
  ⟨pyStripBothWith (fun c => cs.contains c) s.data⟩

/-- Python truthiness of an optional string: `None` and `""` are falsy. -/
def pyTruthyO (s : Option String) : Bool :=
  match s with
  | none => false
  | some t => t ≠ ""

/-- Python substring test `needle in hay` on character lists. -/
def listSub (needle : List Char) : List Char → Bool
  | [] => needle.isPrefixOf []
  | c :: rest => needle.isPrefixOf (c :: rest) || listSub needle rest

/-- Split a character list on runs of whitespace, discarding empty pieces:
Python `str.split()` with no argument. -/
def splitWsAux : List Char → List Char → List (List Char)
  | [], acc => if acc = [] then [] else [acc.reverse]
  | c :: rest, acc =>
      if isPySpace c then
        if acc = [] then splitWsAux rest [] else acc.reverse :: splitWsAux rest []
      else splitWsAux rest (c :: acc)

/-- Python `str.split()`. -/
def splitWs (l : List Char) : List (List Char) :=
  splitWsAux l []

/-- Join word lists with a single separator string: Python `sep.join(words)`. -/
def joinSep (sep : List Char) : List (List Char) → List Char
  | [] => []
  | [w] => w
  | w :: ws => w ++ sep ++ joinSep sep ws

/-- Collapse runs of `' '` to a single space (the effect of
`re.sub(r"\s+", " ", ·)` on a string whose only whitespace is `' '`,
which is the case after the `clean_title` character filter below: tabs and
newlines have Unicode category `Cc` and are already gone). -/
def squeezeSpace : List Char → List Char
  | [] => []
  | [c] => [c]
  | c1 :: c2 :: rest =>
      if c1 = ' ' && c2 = ' ' then squeezeSpace (c2 :: rest)
      else c1 :: squeezeSpace (c2 :: rest)

/-- The character filter of `modules/parsers.py::clean_title`: keep `ch` iff
`unicodedata.category(ch)[0] ∈ {L, N, Z}`.  Modelled exactly on the ASCII
fragment (letters are `L*`, digits `Nd`, `' '` is `Zs`; every other ASCII
character is `C*`, `P*` or `S*` and is dropped) and on the CJK unified
ideograph block (category `Lo`), which is the only non-ASCII range the
application feeds through this function. -/
def keepCat (c : Char) : Bool :=
  if c.toNat < 128 then c.isAlpha || c.isDigit || c = ' '
  else 0x4e00 ≤ c.toNat && c.toNat ≤ 0x9fff

/-- `modules/parsers.py::clean_title`: NFKC-normalize (identity on the inputs
modelled here), keep only letter/number/separator characters lowercased, and
collapse/strip whitespace. -/
def clean_title (text : String) : String :=
  if text = "" then ""
  else ⟨pyStripBothWith isPySpace
          (squeezeSpace ((text.data.filter keepCat).map Char.toLower))⟩

/-- A token that the year-removal regex `\b(19|20)\d{2}\b` of
`_is_match.remove_noise` deletes: exactly four digits starting `19` or `20`.
On `clean_title` output (single-spaced alphanumeric tokens) the
word-boundary regexes delete whole tokens and nothing else. -/
def isYearTok (w : List Char) : Bool :=
  w.length = 4 && w.all Char.isDigit && (w.take 2 = ['1', '9'] || w.take 2 = ['2', '0'])

/-- The stoplist of `remove_noise`:
`re.sub(r'\b(arxiv|biorxiv|available|online|access)\b', '', ·, flags=IGNORECASE)`. -/
def noiseWords : List (List Char) :=
  ["arxiv", "biorxiv", "available", "online", "access"].map String.data

/-- The inner `remove_noise` helper of `api_clients.py::_is_match`: drop year
tokens and stoplist tokens, then re-join with single spaces
(`" ".join(text.split())`). -/
def remove_noise (s : String) : String :=
  ⟨joinSep [' ']
    ((splitWs s.data).filter
      (fun w => !(isYearTok w) && !(noiseWords.contains (w.map Char.toLower))))⟩

/-!
## `difflib.SequenceMatcher` (character level, no junk)

`find_longest_match` is CPython's dynamic program: for each `i` it updates a
map `j2len` sending `j` to the length of the longest common run ending at
`a[i]`/`b[j]`, preferring strictly longer runs, hence the earliest `(i, j)`
on ties.  The junk-extension loops of CPython are no-ops here: `autojunk`
only activates for sequences longer than 199 elements, far beyond the titles
compared by this application, and with no junk a maximal run admits no
extension.  `ratio()` is `2*M/T` where `M` sums the sizes of all matching
blocks obtained by recursive splitting around the longest match.
-/

/-- Ascending indices `j ∈ [blo, bhi)` with `b[j] = c` (difflib's `b2j[c]`
restricted to the current window). -/
def occIdx (b : List Char) (c : Char) (blo bhi : Nat) : List Nat :=
  (List.range b.length).filter
    (fun j => decide (blo ≤ j) && decide (j < bhi) && b.getD j ' ' == c)

/-- Inner loop of `find_longest_match` over the occurrence list of `a[i]`:
`k = j2len.get(j-1, 0) + 1`, record in the new map, update the best block on
a strict improvement. -/
def flmInner (i : Nat) (j2 : Nat → Nat) :
    List Nat → (Nat → Nat) → Nat × Nat × Nat → (Nat → Nat) × (Nat × Nat × Nat)
  | [], acc, best => (acc, best)
  | j :: js, acc, best =>
      let k := if j = 0 then 1 else j2 (j - 1) + 1
      let acc' := fun j' => if j' = j then k else acc j'
      let best' := if best.2.2 < k then (i + 1 - k, j + 1 - k, k) else best
      flmInner i j2 js acc' best'

/-- Outer loop of `find_longest_match` over `i ∈ [alo, ahi)`. -/
def flmOuter (a b : List Char) (blo bhi : Nat) :
    List Nat → (Nat → Nat) → Nat × Nat × Nat → Nat × Nat × Nat
  | [], _, best => best
  | i :: rest, j2, best =>
      let step := flmInner i j2 (occIdx b (a.getD i ' ') blo bhi) (fun _ => 0) best
      flmOuter a b blo bhi rest step.1 step.2

/-- `SequenceMatcher.find_longest_match(alo, ahi, blo, bhi)`:
returns `(besti, bestj, bestsize)`. -/
def findLongestMatch (a b : List Char) (alo ahi blo bhi : Nat) : Nat × Nat × Nat :=
  flmOuter a b blo bhi (List.range' alo (ahi - alo)) (fun _ => 0) (alo, blo, 0)

/-- Total size of all matching blocks (fuelled recursion; each recursive call
strictly shrinks the window, so `|a| + |b| + 1` units of fuel suffice). -/
def mbTotal (a b : List Char) : Nat → Nat → Nat → Nat → Nat → Nat
  | 0, _, _, _, _ => 0
  | fuel + 1, alo, ahi, blo, bhi =>
      let r := findLongestMatch a b alo ahi blo bhi
      if r.2.2 = 0 then 0
      else
        r.2.2 + mbTotal a b fuel alo r.1 blo r.2.1 +
          mbTotal a b fuel (r.1 + r.2.2) ahi (r.2.1 + r.2.2) bhi

/-- `M = sum(size for block in get_matching_blocks())` for the two strings. -/
def seqMatchTotal (a b : List Char) : Nat :=
  mbTotal a b (a.length + b.length + 1) 0 a.length 0 b.length

/-- `SequenceMatcher(None, q, r).ratio() >= num/den`, as the exact rational
comparison `den*(2M) ≥ num*T`; `difflib._calculate_ratio` returns `1.0` when
both strings are empty. -/
def seqRatioGe (q r : String) (num den : Nat) : Bool :=
  let t := q.length + r.length
  if t = 0 then true else decide (num * t ≤ den * (2 * seqMatchTotal q.data r.data))

/-- The stop-word set of `_is_match`. -/
def stopWords : List (List Char) :=
  ["a", "an", "the", "of", "in", "for", "with", "on", "at", "by", "and", "from", "to"].map
    String.data

/-- `modules/api_clients.py::_is_match(query, result)`.  Arguments are
`Option String` because call sites pass values that may be Python `None`
(e.g. a Semantic Scholar record with no title); `if not query or not result:
return False` is the truthiness guard.  The branches, in source order:
long-query containment (`len(c_q) > len(c_r)*1.5 and c_r in c_q`), similarity
`ratio >= 0.8`, the ≤1-missing-word rule for queries of ≥5 distinct words,
and the no-missing-word rule guarded by `len(c_q) > len(c_r)*0.3`
(`q_words`/`r_words` are Python sets, hence de-duplicated). -/
def _is_match (query result : Option String) : Bool :=
  if !(pyTruthyO query) || !(pyTruthyO result) then false
  else
    let c_q := remove_noise (clean_title (query.getD ""))
    let c_r := remove_noise (clean_title (result.getD ""))
    if 2 * c_q.length > 3 * c_r.length && listSub c_r.data c_q.data then true
    else if seqRatioGe c_q c_r 4 5 then true
    else
      let qWords := (splitWs c_q.data).dedup
      let rWords := splitWs c_r.data
      let missing := qWords.filter (fun w => !(stopWords.contains w) && !(rWords.contains w))
      if missing.length ≤ 1 && qWords.length ≥ 5 then true
      else if missing.length = 0 && 10 * c_q.length > 3 * c_r.length then true
      else false

/-- A Python value of the shapes `format_name_field` handles: a string, a
list, or a `{family, given}` record (the only dict keys it reads). -/
inductive PyVal where
  | pstr (s : String)
  | plist (l : List PyVal)
  | pdict (family given : Option String)

/-- Python truthiness of an optional `PyVal` (`None`, `""` and `[]` are
falsy; the author/editor dicts arising here are non-empty, hence truthy). -/
def pyValTruthy : Option PyVal → Bool
  | none => false
  | some (.pstr s) => s ≠ ""
  | some (.plist l) => !l.isEmpty
  | some (.pdict _ _) => true

/-- Python `str(v)` for the values reaching `names_list.append(str(item))`;
the repr of a nested list/dict is abbreviated (no claim depends on it). -/
def pyValStr : PyVal → String
  | .pstr s => s
  | .plist _ => "[...]"
  | .pdict _ _ => "\x7b...\x7d"

/-- One loop iteration of `format_name_field`: a dict contributes
`", ".join([family, given] minus falsy)`, anything else contributes
`str(item)`. -/
def nameOfEntry (v : PyVal) : String :=
  match v with
  | .pdict fam giv =>
      ⟨joinSep (", ".data) (([fam.getD "", giv.getD ""].filter (· ≠ "")).map String.data)⟩
  | x => pyValStr x

/-- `app.py::format_name_field`.  `lit` is the `ast.literal_eval` collaborator
(Python-literal parsing, a stdlib black box here): `none` models the parse
raising, in which case the original string is returned.  Strings not starting
with `[`/`{` return unchanged; otherwise the parsed value (a list or a single
record) is flattened to a `"; "`-joined name string. -/
def format_name_field (lit : String → Option PyVal) (data : Option PyVal) : Option String :=
  match data with
  | none => none
  | some v =>
      if !(pyValTruthy (some v)) then none
      else
        match v with
        | .pstr s =>
            if !(s.data.headD ' ' = '[' || s.data.headD ' ' = '{') then some s
            else
              match lit s with
              | none => some s
              | some v' =>
                  let dataList := match v' with | .plist l => l | x => [x]
                  some ⟨joinSep ("; ".data) (dataList.map (fun x => (nameOfEntry x).data))⟩
        | v' =>
            let dataList := match v' with | .plist l => l | x => [x]
            some ⟨joinSep ("; ".data) (dataList.map (fun x => (nameOfEntry x).data))⟩

/-- An author record as returned by the bibliographic APIs: either a dict
(Crossref/Scopus/S2/OpenAlex shapes; only the `family`/`surname`/`ce:surname`
and `name`/`authname` keys are read) or a plain string. -/
inductive AuthorVal where
  | arec (family surname ceSurname nm authname : Option String)
  | astr (s : String)

/-- Python `s.lower()` (ASCII). -/
def pyLower (s : String) : String :=
  ⟨s.data.map Char.toLower⟩

/-- `api_clients.py::_check_author_match(query_author, result_authors_list)`:
vacuously true when the query author is missing or shorter than 2
characters; otherwise extract the query surname (`re.split(r'[, ]', ·)[0]`,
lowercased and stripped) and accept iff it occurs as a substring of any
flattened candidate author string.  A dict contributes two entries:
`str(family or surname or ce:surname or '').lower()` and
`str(name or authname or '').lower()`. -/
def _check_author_match (queryAuthor : Option String) (resultAuthors : List AuthorVal) : Bool :=
  let qa := queryAuthor.getD ""
  if !(pyTruthyO queryAuthor) || qa.length < 2 then true
  else
    let qFamily :=
      pyStrip (pyLower ⟨((pyStrip qa).data.takeWhile (fun c => c ≠ ',' && c ≠ ' '))⟩)
    if qFamily = "" then true
    else
      let orChain := fun (l : List (Option String)) =>
        (l.map (fun o => o.getD "")).foldl (fun acc s => if acc ≠ "" then acc else s) ""
      let formatted := resultAuthors.flatMap
        (fun a =>
          match a with
          | .arec fam sur ces nm an =>
              [pyLower (orChain [fam, sur, ces]), pyLower (orChain [nm, an])]
          | .astr s => [pyLower s])
      formatted.any (fun s => listSub qFamily.data s.data)

/-!
## Claims C4, C5, C10 — the match evaluator
-/

/-- C4 (counterexample): the claim says a SequenceMatcher similarity ratio of
at least 0.70 on the normalized strings suffices for `_is_match` to accept.
For `"alpha xy"` vs `"alpha zw"` the ratio is `2·6/16 = 0.75 ≥ 0.70`, yet
`_is_match` rejects: the source gate is `ratio >= 0.8`, and no other signal
fires (no containment, one missing word on a 2-word query). -/
theorem C4_counterexample :
    seqRatioGe (remove_noise (clean_title "alpha xy"))
      (remove_noise (clean_title "alpha zw")) 7 10 = true ∧
    _is_match (some "alpha xy") (some "alpha zw") = false := by
  constructor <;> decide

/-- C4 (amended): for non-empty strings, a similarity ratio of at least
**0.8** (the threshold actually in `_is_match`) on the
`remove_noise ∘ clean_title`-normalized strings suffices for `_is_match`
to return true. -/
theorem C4_amended_ratio_gate (q r : String) (hq : q ≠ "") (hr : r ≠ "")
    (hrat : seqRatioGe (remove_noise (clean_title q)) (remove_noise (clean_title r)) 4 5 = true) :
    _is_match (some q) (some r) = true := by
  have h1 : pyTruthyO (some q) = true := by simp [pyTruthyO, hq]
  have h2 : pyTruthyO (some r) = true := by simp [pyTruthyO, hr]
  by_cases hA : (decide (2 * (remove_noise (clean_title q)).length >
      3 * (remove_noise (clean_title r)).length) &&
      listSub (remove_noise (clean_title r)).data (remove_noise (clean_title q)).data) = true
  · simp [_is_match, h1, h2, hA]
  · simp only [_is_match, h1, h2, Bool.not_true, Bool.or_self, Bool.false_or,
      Option.getD_some, if_false]
    simp [hA, hrat]

/-- C4 (witness): the amended theorem applied at a concrete input. -/
theorem C4_amended_ratio_gate_witness :
    seqRatioGe (remove_noise (clean_title "same words"))
      (remove_noise (clean_title "same words")) 4 5 = true ∧
    _is_match (some "same words") (some "same words") = true :=
  ⟨by decide, C4_amended_ratio_gate "same words" "same words"
    (by decide) (by decide) (by decide)⟩

/-- C5 (counterexample): the claim says verbatim containment after
normalization, in either direction, suffices.  `"ab cd"` is contained
verbatim in `"ab cd eeeee fffff ggggg hhhhh"`, yet `_is_match` rejects the
short query against the long candidate: the source containment branch only
fires when the **query** is more than 1.5 times longer than the candidate
(`len(c_q) > len(c_r)*1.5 and c_r in c_q`), and here the no-missing-word
fallback is blocked by its `len(c_q) > len(c_r)*0.3` length guard. -/
theorem C5_counterexample :
    listSub (remove_noise (clean_title "ab cd")).data
      (remove_noise (clean_title "ab cd eeeee fffff ggggg hhhhh")).data = true ∧
    _is_match (some "ab cd") (some "ab cd eeeee fffff ggggg hhhhh") = false := by
  constructor <;> decide

/-- C5 (amended): containment accepts in one direction only — when the
normalized query is more than 1.5 times longer than the normalized candidate
and the candidate is contained verbatim in the query, `_is_match` returns
true. -/
theorem C5_amended_containment (q r : String) (hq : q ≠ "") (hr : r ≠ "")
    (hlen : 2 * (remove_noise (clean_title q)).length > 3 * (remove_noise (clean_title r)).length)
    (hsub : listSub (remove_noise (clean_title r)).data
      (remove_noise (clean_title q)).data = true) :
    _is_match (some q) (some r) = true := by
  have h1 : pyTruthyO (some q) = true := by simp [pyTruthyO, hq]
  have h2 : pyTruthyO (some r) = true := by simp [pyTruthyO, hr]
  simp [_is_match, h1, h2, hlen, hsub]

/-- C5 (witness): the amended theorem applied at a concrete input (a long
raw-text query containing a short canonical title). -/
theorem C5_amended_containment_witness :
    listSub (remove_noise (clean_title "beta gamma")).data
      (remove_noise (clean_title "alpha beta gamma delta epsilon")).data = true ∧
    _is_match (some "alpha beta gamma delta epsilon") (some "beta gamma") = true :=
  ⟨by decide, C5_amended_containment "alpha beta gamma delta epsilon" "beta gamma"
    (by decide) (by decide) (by decide) (by decide)⟩

/-- C10 (confirmed): if either argument of `_is_match` is Python `None` or
the empty string, the result is false — a reference whose normalized title
ends up empty can never be accepted by a title-matching stage, even against
an empty candidate title. -/
theorem C10_empty_title_rejected (q r : Option String)
    (h : q = none ∨ q = some "" ∨ r = none ∨ r = some "") : _is_match q r = false := by
  have hf : pyTruthyO q = false ∨ pyTruthyO r = false := by
    rcases h with h | h | h | h <;> subst h <;> simp [pyTruthyO]
  rcases hf with h | h <;> simp [_is_match, h]

/-- C10 (witness): the theorem applied at concrete inputs (empty query
against empty candidate). -/
theorem C10_empty_title_rejected_witness :
    (some "" = none ∨ some "" = some "" ∨ (some "" : Option String) = none ∨
      (some "" : Option String) = some "") ∧
    _is_match (some "") (some "") = false :=
  ⟨Or.inr (Or.inl rfl), C10_empty_title_rejected (some "") (some "") (Or.inr (Or.inl rfl))⟩

/-!
## `app.py::refine_parsed_data` — the title normalizer

The regular expressions of the source are translated operationally; each
helper's doc comment quotes the regex it implements.  All inputs are
single-line (the parser feeds one reference line at a time), so `.`/`$`
never meet a newline.
-/

/-- Python `\w` (ASCII fragment). -/
def isWordChar (c : Char) : Bool :=
  c.isAlpha || c.isDigit || c = '_'

/-- The tail `\(?\d{4}\)?[\.\s]+(.*)` of the second-author-residue regex,
anchored at the head of `l`; returns the capture group.  The optional
brackets need no backtracking: if the bracketed attempt fails, the
bracket character itself can match neither `\d` nor `[\.\s]`. -/
def patch1Tail (l : List Char) : Option (List Char) :=
  let l1 := match l with | '(' :: rest => rest | _ => l
  match l1 with
  | d1 :: d2 :: d3 :: d4 :: rest =>
      if d1.isDigit && d2.isDigit && d3.isDigit && d4.isDigit then
        let l2 := match rest with | ')' :: r2 => r2 | _ => rest
        let run := l2.takeWhile (fun c => c = '.' || isPySpace c)
        if run.isEmpty then none else some (l2.drop run.length)
      else none
  | _ => none

/-- The lazy `[^0-9]+?` of the residue regex: consume at least one non-digit
character, then try the year tail at each extension, shortest first (a digit
stops the scan, as `[^0-9]` cannot pass it). -/
def patch1Scan : List Char → Option (List Char)
  | [] => none
  | c :: rest =>
      if c.isDigit then none
      else
        match patch1Tail rest with
        | some cap => some cap
        | none => patch1Scan rest

/-- `re.search(r'^&(?:amp;)?\s*[^0-9]+?\(?\d{4}\)?[\.\s]+(.*)', title)` of
Patch 1 in `refine_parsed_data`.  The backtracking engine prefers the
maximal `\s*`, so positions after the leading spaces are tried first
(`patch1Scan`); only if none matches does `\s*` give characters back to
`[^0-9]+?`, which makes the year tail start right after the spaces. -/
def patch1 (title : String) : Option String :=
  match title.data with
  | '&' :: u0 =>
      let u := if "amp;".data.isPrefixOf u0 then u0.drop 4 else u0
      let sp := u.takeWhile isPySpace
      let afterSp := u.drop sp.length
      match patch1Scan afterSp with
      | some cap => some ⟨cap⟩
      | none => if sp.length ≥ 1 then (patch1Tail afterSp).map (fun c => (⟨c⟩ : String)) else none
  | _ => none

/-- `re.sub(r'^\s*\d{4}[\.\s]+', '', ·)` of Patch 2: drop a leading 4-digit
year plus following dots/whitespace (a fifth digit makes `[\.\s]+` fail, so
nothing is removed then). -/
def stripLeadingYear (t : List Char) : List Char :=
  let sp := t.takeWhile isPySpace
  let rest := t.drop sp.length
  match rest with
  | d1 :: d2 :: d3 :: d4 :: r2 =>
      if d1.isDigit && d2.isDigit && d3.isDigit && d4.isDigit then
        let run := r2.takeWhile (fun c => c = '.' || isPySpace c)
        if run.isEmpty then t else r2.drop run.length
      else t
  | _ => t

/-- Case-insensitive prefix test (ASCII lowercasing, as `(?i)` here). -/
def ciPrefixOf (m l : List Char) : Bool :=
  (m.map Char.toLower).isPrefixOf (l.map Char.toLower)

/-- Index of the first case-insensitive occurrence of `m` in the list. -/
def findCi (m : List Char) : List Char → Option Nat
  | [] => if m.isEmpty then some 0 else none
  | c :: rest =>
      if ciPrefixOf m (c :: rest) then some 0
      else (findCi m rest).map (· + 1)

/-- `re.sub(r'(?i)\.?\s*MARKER.*$', '', ·)` for a single-line string: the
leftmost match starts at the first occurrence of the marker, extended left
over contiguous whitespace and then over one optional dot; everything from
there on is removed. -/
def stripFromMarker (m : String) (t : List Char) : List Char :=
  match findCi m.data t with
  | none => t
  | some k =>
      let pre := t.take k
      let j := pre.length - (pre.reverse.takeWhile isPySpace).length
      let pre2 := pre.take j
      let j2 := if pre2 ≠ [] && pre2.getLast? = some ('.' : Char) then j - 1 else j
      t.take j2

/-- Character class `[A-Z0-9\-\.\s]` of the abbreviation-salvage regex. -/
def abbrClass (c : Char) : Bool :=
  ('A' ≤ c && c ≤ 'Z') || c.isDigit || c = '-' || c = '.' || isPySpace c

/-- The lookahead `(?=\s*[,\[]|\s*Available|\s*\(|\bhttps?://|\.|$)` of the
abbreviation-salvage regex, tested with `prev` the character before the
current position (for the `\b`). -/
def abbrStop (prev : Char) (l : List Char) : Bool :=
  let afterWs := l.dropWhile isPySpace
  (match afterWs with
   | c :: _ => c = ',' || c = '[' || c = '('
   | [] => false) ||
  "Available".data.isPrefixOf afterWs ||
  (!(isWordChar prev) && ("http://".data.isPrefixOf l || "https://".data.isPrefixOf l)) ||
  (match l with | c :: _ => c = '.' | [] => true)

/-- The lazy `.+?` of the abbreviation-salvage regex: extend the body one
character at a time until the lookahead fires (it always fires at the end
of the line via `$`); returns the body length. -/
def abbrLoop (prev : Char) (consumed : Nat) : List Char → Nat
  | [] => consumed
  | c :: rest => if abbrStop prev (c :: rest) then consumed else abbrLoop c (consumed + 1) rest

/-- Salvage Pattern A of `refine_parsed_data`:
`re.search(r'^([A-Z0-9\-\.\s]{2,12}:\s*.+?)(?=\s*[,\[]|\s*Available|\s*\(|\bhttps?://|\.|$)', raw_text)`,
already `.strip()`-ed as at the call site.  Since `:` is not in the leading
character class, the greedy `{2,12}` succeeds only when the full class run
(at most 12 long) is followed by `:`. -/
def abbrSalvage (raw : String) : Option String :=
  let t := raw.data
  let n := (t.takeWhile abbrClass).length
  if 2 ≤ n && n ≤ 12 && t.getD n ' ' == ':' then
    let afterColon := t.drop (n + 1)
    let ws := afterColon.takeWhile isPySpace
    match afterColon.drop ws.length with
    | [] => none
    | c0 :: rest =>
        let bodyLen := abbrLoop c0 1 rest
        some (pyStrip ⟨t.take (n + 1 + ws.length + bodyLen)⟩)
  else none

/-- The tail `\W+\s*(.+)` of the year-relocation regex, anchored right after
a year occurrence.  `\W+` greedily eats the non-word run (which includes all
whitespace, leaving `\s*` empty); if nothing remains for `(.+)`, the engine
gives the last non-word character back to it. -/
def yearTailMatch (after : List Char) : Option (List Char) :=
  let run := after.takeWhile (fun c => !(isWordChar c))
  if run.isEmpty then none
  else
    let rest := after.drop run.length
    if !rest.isEmpty then some rest
    else if run.length ≥ 2 then some [after.getD (run.length - 1) ' ']
    else none

/-- Index of the first occurrence of `pat` in the list. -/
def findSubAt (pat : List Char) : List Char → Option Nat
  | [] => if pat.isEmpty then some 0 else none
  | c :: rest => if pat.isPrefixOf (c :: rest) then some 0 else (findSubAt pat rest).map (· + 1)

/-- `re.search(rf'{year_str}\W+\s*(.+)', raw_text)` of salvage Pattern C:
the scan resumes one position past a year occurrence whose tail fails
(fuelled; the remaining text strictly shrinks at each resumption). -/
def yearSalvageF (year : List Char) : Nat → List Char → Option (List Char)
  | 0, _ => none
  | fuel + 1, t =>
      match findSubAt year t with
      | none => none
      | some k =>
          match yearTailMatch ((t.drop k).drop year.length) with
          | some cap => some cap
          | none => yearSalvageF year fuel ((t.drop k).drop 1)

/-- Entry point for Pattern C's regex search. -/
def yearSalvage (year t : List Char) : Option (List Char) :=
  yearSalvageF year (t.length + 1) t

/-- Character class `[-._;()/:a-zA-Z0-9]` of the DOI-extraction regex. -/
def doiClass (c : Char) : Bool :=
  c = '-' || c = '.' || c = '_' || c = ';' || c = '(' || c = ')' || c = '/' || c = ':' ||
    c.isAlpha || c.isDigit

/-- Try `10\.\d{4,9}/[-._;()/:a-zA-Z0-9]+` at the head of the list.  The
greedy `\d{4,9}` needs no backtracking: a digit can never match the required
`/`, so only the full digit run (capped at 9) can be followed by it. -/
def doiMatchAt (t : List Char) : Option (List Char) :=
  match t with
  | '1' :: '0' :: '.' :: rest =>
      let g := (rest.takeWhile Char.isDigit).length
      let k := min g 9
      if k < 4 then none
      else if rest.getD k ' ' == '/' then
        let run := (rest.drop (k + 1)).takeWhile doiClass
        if run.isEmpty then none
        else some ('1' :: '0' :: '.' :: (rest.take k ++ '/' :: run))
      else none
  | _ => none

/-- `re.search(r'(10\.\d{4,9}/[-._;()/:a-zA-Z0-9]+)', url)`: leftmost match. -/
def doiFromUrl : List Char → Option String
  | [] => none
  | c :: rest =>
      match doiMatchAt (c :: rest) with
      | some m => some ⟨m⟩
      | none => doiFromUrl rest

/-- A `ParsedReference` as produced by `parse_references_with_anystyle`:
`text` is always populated; the other fields may be absent (`none`).
`authors`/`editor` may carry any Python value shape (`PyVal`). -/
structure PRef where
  text : String := ""
  title : Option String := none
  doi : Option String := none
  url : Option String := none
  date : Option String := none
  authors : Option PyVal := none
  editor : Option PyVal := none
  publisher : Option String := none
  containerTitle : Option String := none
  journal : Option String := none

/-- The reference record as returned by `refine_parsed_data` (the
`NormalizedReference` of the spec). -/
structure NRef where
  text : String
  title : Option String
  doi : Option String
  url : Option String
  date : Option String
  authors : Option PyVal
  editor : Option PyVal
  publisher : Option String
  containerTitle : Option String
  journal : Option String

/-- Step 1 of `refine_parsed_data`: `item[key].strip(' ,.;)]}>')` applied to
a field when it is truthy. -/
def stripPyField (v : Option String) : Option String :=
  match v with
  | none => none
  | some s => if s ≠ "" then some (pyStripSet " ,.;)]\x7d>".data s) else some s

/-- `app.py::refine_parsed_data(parsed_item)`.  `lit` is the
`ast.literal_eval` collaborator used by `format_name_field`.  The steps, in
source order: punctuation strip of `doi`/`url`/`title`/`date`; Patch 1
(second-author residue, replacing the title only when the remainder exceeds
5 characters); Patch 2 (leading-year and `arXiv`/`Available` noise, the
result always written back when the title was truthy); title salvage
(Pattern A abbreviation match on the raw text, else the first
`publisher`/`container-title`/`journal` longer than 15 characters, then
Pattern C year relocation when the title is still falsy or `"N/A"` and a
date is present); DOI extraction from the URL; author/editor flattening. -/
def refine_parsed_data (lit : String → Option PyVal) (parsed : PRef) : NRef :=
  let raw_text := pyStrip parsed.text
  let doi1 := stripPyField parsed.doi
  let url1 := stripPyField parsed.url
  let title1 := stripPyField parsed.title
  let date1 := stripPyField parsed.date
  let t0 := title1.getD ""
  let p1 :=
    if t0 ≠ "" && ("&".data.isPrefixOf t0.data || "and ".data.isPrefixOf (pyLower t0).data) then
      match patch1 t0 with
      | some cap =>
          let cleaned := pyStrip cap
          if cleaned.length > 5 then (cleaned, some cleaned) else (t0, title1)
      | none => (t0, title1)
    else (t0, title1)
  let p2 :=
    if p1.1 ≠ "" then
      let t2 : String :=
        ⟨stripFromMarker "Available" (stripFromMarker "arXiv" (stripLeadingYear p1.1.data))⟩
      (t2, some t2)
    else p1
  let title4 :=
    if p2.1 = "" || p2.1.length < 5 then
      match abbrSalvage raw_text with
      | some a => some a
      | none =>
          match ([parsed.publisher, parsed.containerTitle, parsed.journal].filter
              (fun v => pyTruthyO v && (v.getD "").length > 15)).head? with
          | some v => some (pyStrip (v.getD ""))
          | none => p2.2
    else p2.2
  let title5 :=
    if (!(pyTruthyO title4) || title4 = some "N/A") && pyTruthyO date1 then
      let year := (date1.getD "").data.take 4
      if !year.isEmpty && year.all Char.isDigit then
        match yearSalvage year raw_text.data with
        | some cap =>
            let candidate := pyStrip ⟨cap⟩
            let candidate : String :=
              ⟨stripFromMarker "Available" (stripFromMarker "arXiv" candidate.data)⟩
            if candidate.length > 5 then some (pyStripSet " .".data candidate) else title4
        | none => title4
      else title4
    else title4
  let doi2 :=
    if url1.getD "" ≠ "" then
      match doiFromUrl (url1.getD "").data with
      | some d => some (pyStripSet ['.'] d)
      | none => doi1
    else doi1
  let authors2 :=
    if pyValTruthy parsed.authors then (format_name_field lit parsed.authors).map PyVal.pstr
    else parsed.authors
  let editor2 :=
    if pyValTruthy parsed.editor then (format_name_field lit parsed.editor).map PyVal.pstr
    else parsed.editor
  { text := parsed.text, title := title5, doi := doi2, url := url1, date := date1,
    authors := authors2, editor := editor2, publisher := parsed.publisher,
    containerTitle := parsed.containerTitle, journal := parsed.journal }

/-!
## Claims C8, C9 — the normalizer
-/

/-- C8 (confirmed): the normalizer repairs the second-author-residue title
`"& Heinzl, A.(2021). Real Title"` to `"Real Title"` and strips the leading
year and arXiv noise from `"2024. Deep Nets. arXiv:123"` to `"Deep Nets"`. -/
theorem C8_title_repair :
    (refine_parsed_data (fun _ => none)
      { title := some "& Heinzl, A.(2021). Real Title" }).title = some "Real Title" ∧
    (refine_parsed_data (fun _ => none)
      { title := some "2024. Deep Nets. arXiv:123" }).title = some "Deep Nets" := by
  constructor <;> rfl

/-- C9 (confirmed): `refine_parsed_data` is total (it is a Lean function, so
it never fails) and never changes the `text` field — the returned record's
`text` is the input's `text` verbatim; the input record itself cannot be
mutated in this purely functional model, and the fields other than `title`,
`doi`, `url`, `date`, `authors`, `editor` (`publisher`, `container-title`,
`journal`) are also returned untouched. -/
theorem C9_text_never_mutated (lit : String → Option PyVal) (parsed : PRef) :
    (refine_parsed_data lit parsed).text = parsed.text ∧
    (refine_parsed_data lit parsed).publisher = parsed.publisher ∧
    (refine_parsed_data lit parsed).containerTitle = parsed.containerTitle ∧
    (refine_parsed_data lit parsed).journal = parsed.journal :=
  ⟨rfl, rfl, rfl, rfl⟩

/-!
## `modules/api_clients.py` — the source connectors

Each HTTP request is modelled by a "world" value enumerating the outcomes
the Python call can have: the request raising (`exn`), or a response with a
status code and a decoded JSON body (`none` for a body on which
`response.json()` raises).  Request construction (URL, params, headers) only
feeds the external service and is absorbed into the world; the response
shapes are structures holding exactly the fields each connector reads.
Connectors whose reachable code contains no throwing operation are written
as `.ok ⟨...⟩` directly; `try/except` around a throwing block becomes
`pyCatch`.
-/

/-- Outcome of one `requests.get` call: raised, or a status plus decoded
body (`none`: `response.json()` raises). -/
inductive HttpTry (J : Type) where
  | exn
  | resp (status : Nat) (json : Option J)

/-- `try: ... except: return fallback`. -/
def pyCatch {A : Type} (body : Except Unit A) (fallback : A) : A :=
  match body with
  | .ok v => v
  | .error _ => fallback

/-- `api_clients.py::_call_external_api_with_retry`: two attempts
(`MAX_RETRIES = 2`); a 200 with decodable JSON returns `(json, "OK")`, a
401/403 returns an auth diagnostic, and any other status, raise, or JSON
decode failure falls through to the next attempt, then to
`(None, "Error")`. -/
def _call_external_api_with_retry {J : Type} (w1 w2 : HttpTry J) : Option J × String :=
  let attempt : HttpTry J → Option (Option J × String) := fun t =>
    match t with
    | .exn => none
    | .resp s j =>
        if s = 200 then
          match j with
          | some v => some (some v, "OK")
          | none => none
        else if s = 401 || s = 403 then some (none, "Auth Error (" ++ toString s ++ ")")
        else none
  match attempt w1 with
  | some r => r
  | none =>
      match attempt w2 with
      | some r => r
      | none => (none, "Error")

/-- The `message` object read by `search_crossref_by_doi`:
`item.get("title", [])` and `item.get("URL")`. -/
structure CrMsg where
  title : List String := []
  URL : Option String := none

/-- `api_clients.py::search_crossref_by_doi(doi, target_title)`: a single
`requests.get` inside `try/except` (so transport and JSON failures collapse
to `(None, None, "Conn Error")`); on 200, an optional title cross-check
against `target_title`, else the record's URL or a synthesized
`https://doi.org/` link. -/
def search_crossref_by_doi (doi targetTitle : Option String) (w : HttpTry CrMsg) :
    Except Unit (Option String × Option String × String) :=
  if !(pyTruthyO doi) then .ok (none, none, "Empty DOI")
  else
    let cleanDoi := pyStripSet " ,.;)]\x7d>".data (doi.getD "")
    let body : Except Unit (Option String × Option String × String) :=
      match w with
      | .exn => .error ()
      | .resp status j =>
          if status = 200 then
            match j with
            | none => .error ()
            | some item =>
                let resTitle := item.title.headD ""
                if pyTruthyO targetTitle && !(_is_match targetTitle (some resTitle)) then
                  .ok (none, none,
                    "DOI Title Mismatch: " ++ (⟨resTitle.data.take 40⟩ : String) ++ "...")
                else
                  .ok (some resTitle,
                    some (if item.URL.getD "" ≠ "" then item.URL.getD ""
                          else "https://doi.org/" ++ cleanDoi), "OK")
          else .ok (none, none, "HTTP " ++ toString status)
    .ok (pyCatch body (none, none, "Conn Error"))

/-- One item of the Crossref free-text result list:
`item.get('title', [''])` (`none` = key missing), `item.get('author', [])`,
`item.get('URL')`, `item.get('DOI')`. -/
structure CrTextItem where
  title : Option (List String) := none
  author : List AuthorVal := []
  URL : Option String := none
  DOI : Option String := none

/-- `data.get('message', {}).get('items')` of the Crossref search response. -/
structure CrTextBody where
  items : List CrTextItem := []

/-- Python list indexing `l[0]`: raises `IndexError` on an empty list. -/
def pyIndexZero (l : List String) : Except Unit String :=
  match l with
  | [] => .error ()
  | x :: _ => .ok x

/-- `item.get('URL') or f"https://doi.org/{item.get('DOI')}"` (a missing DOI
renders as the literal `None`, as Python f-strings do). -/
def crItemUrl (item : CrTextItem) : String :=
  if item.URL.getD "" ≠ "" then item.URL.getD ""
  else "https://doi.org/" ++ (match item.DOI with | some d => d | none => "None")

/-- The `for item in data['message']['items']` loop of
`search_crossref_by_text`: take the first item whose title matches and whose
author matches; a title match with an author mismatch continues the loop.
`res_title = item.get('title', [''])[0]` raises `IndexError` when the item
carries `title: []`. -/
def crTextLoop (title : String) (author : Option String) :
    List CrTextItem → Except Unit (Option String × String)
  | [] => .ok (none, "Match failed (Title or Author mismatch)")
  | item :: rest => do
      let resTitle ← pyIndexZero (item.title.getD [""])
      if _is_match (some title) (some resTitle) then
        if _check_author_match author item.author then
          pure (some (crItemUrl item), "OK")
        else crTextLoop title author rest
      else crTextLoop title author rest

/-- `api_clients.py::search_crossref_by_text(title, author)`.  No
`try/except` of its own: the retry helper absorbs transport failures, but
the `[0]` in the result loop can raise past the boundary. -/
def search_crossref_by_text (title : String) (author : Option String)
    (w1 w2 : HttpTry CrTextBody) : Except Unit (Option String × String) :=
  if title = "" then .ok (none, "Empty Title")
  else
    let r := _call_external_api_with_retry w1 w2
    match r.1 with
    | some d => if r.2 = "OK" && !d.items.isEmpty then crTextLoop title author d.items
                else .ok (none, r.2)
    | none => .ok (none, r.2)

/-- One Scopus search entry: the `'error' in entries[0]` key test,
`dc:title`, `dc:creator`, `prism:url`. -/
structure ScopusEntry where
  isError : Bool := false
  dcTitle : String := ""
  dcCreator : String := ""
  prismUrl : Option String := none

/-- `data.get('search-results', {}).get('entry', [])`. -/
structure ScopusBody where
  entries : List ScopusEntry := []

/-- `api_clients.py::search_scopus_by_title(title, api_key, author)`: key
guard, retry call, first-entry title and creator checks.  Every reachable
operation is total (the `entries[0]` access is guarded by `if not
entries`), so the connector is `.ok` by construction; a non-"OK" retry
status falls through to the final `return None, "Error"`. -/
def search_scopus_by_title (title : String) (apiKey author : Option String)
    (w1 w2 : HttpTry ScopusBody) : Except Unit (Option String × String) :=
  .ok (
    if !(pyTruthyO apiKey) then (none, "No API Key")
    else
      let r := _call_external_api_with_retry w1 w2
      match r.1 with
      | some d =>
          if r.2 = "OK" then
            match d.entries with
            | [] => (none, "(No results found)")
            | e :: _ =>
                if e.isError then (none, "(No results found)")
                else if _is_match (some title) (some e.dcTitle) then
                  if _check_author_match author [AuthorVal.astr e.dcCreator] then
                    (some (e.prismUrl.getD "https://www.scopus.com"), "OK")
                  else (none, "Author Mismatch (Found: " ++ e.dcCreator ++ ")")
                else (none, "Title Mismatch: " ++ (⟨e.dcTitle.data.take 30⟩ : String) ++ "...")
          else (none, "Error")
      | none => (none, "Error"))

/-- One organic result of a Scholar search: `entry.get("title", ...)`,
`entry.get("link", ...)`. -/
structure ScholarEntry where
  title : Option String := none
  link : Option String := none

/-- The dict returned by `GoogleSearch(...).get_dict()`: `organic` is `some`
iff the `"organic_results"` key is present. -/
structure ScholarDict where
  organic : Option (List ScholarEntry) := none

/-- Outcome of `GoogleSearch(params).get_dict()`: the underlying HTTP request
can raise (`exn`), and the serpapi client does not catch it. -/
inductive GetDictOutcome where
  | exn
  | ok (d : ScholarDict)

/-- The conference alternatives of the fingerprint regex
`(ICAIT|CVPR|nips|arxiv|IEEE|ACM)\s*20\d{2}` (case-insensitive), in source
order. -/
def confKeys : List (List Char) :=
  ["icait", "cvpr", "nips", "arxiv", "ieee", "acm"].map String.data

/-- Match length of the conference regex anchored at the head of `t` (first
alternative whose full tail matches, as the backtracking engine tries). -/
def confMatchAt (t : List Char) : Option Nat :=
  confKeys.foldl
    (fun acc k =>
      match acc with
      | some n => some n
      | none =>
          if ciPrefixOf k t then
            let rest := t.drop k.length
            let ws := rest.takeWhile isPySpace
            match rest.drop ws.length with
            | '2' :: '0' :: d3 :: d4 :: _ =>
                if d3.isDigit && d4.isDigit then some (k.length + ws.length + 4) else none
            | _ => none
          else none)
    none

/-- `re.search` for the conference regex: `group(0)` of the leftmost match. -/
def confSearch : List Char → Option (List Char)
  | [] => none
  | c :: rest =>
      match confMatchAt (c :: rest) with
      | some n => some ((c :: rest).take n)
      | none => confSearch rest

/-- The fingerprint query of `search_scholar_by_title`:
`re.sub(r'[^\w\s]', '', title)[:60]`, the author (empty when falsy), and the
extracted conference token, joined by single spaces and stripped. -/
def buildScholarQuery (title : String) (author rawText : Option String) : String :=
  let conference : String :=
    match rawText with
    | some rt => if rt ≠ "" then (⟨(confSearch rt.data).getD []⟩ : String) else ""
    | none => ""
  let ct : String := ⟨(title.data.filter (fun c => isWordChar c || isPySpace c)).take 60⟩
  pyStrip (ct ++ " " ++ author.getD "" ++ " " ++ conference)

/-- The `for entry in results["organic_results"][:3]` loop: accept the first
entry whose lowercased title contains both `"rag"` and `"document"` (the
hard-coded `keywords[:2]` of the source). -/
def scholarScan : List ScholarEntry → Option (String × String)
  | [] => none
  | e :: rest =>
      let ft := e.title.getD ""
      if listSub "rag".data (pyLower ft).data && listSub "document".data (pyLower ft).data then
        some (e.link.getD "", ft)
      else scholarScan rest

/-- `api_clients.py::search_scholar_by_title(title, api_key, author,
raw_text)`.  The initial `st.write` progress line is a UI side effect with
no return value.  `search.get_dict()` is **not** wrapped in `try/except`
here, so a transport failure propagates out of the connector (its only
caller guards the call with a bare `except`).  The function returns at
`return None, None` after the keyword loop; the author-cleaning and
three-step fallback code below that `return` in the source is unreachable
and is therefore not part of the model. -/
def search_scholar_by_title (title : String) (apiKey author rawText : Option String)
    (w : String → GetDictOutcome) : Except Unit (Option String × Option String) := do
  let query := buildScholarQuery title author rawText
  let results ←
    (match w query with
     | .exn => .error ()
     | .ok d => .ok d : Except Unit ScholarDict)
  match results.organic with
  | some entries =>
      match scholarScan (entries.take 3) with
      | some (link, ft) => pure (some link, some ft)
      | none => pure (none, none)
  | none => pure (none, none)

/-- `api_clients.py::search_scholar_by_ref_text(ref_text, api_key,
target_title)`: the whole search is inside `try/except: pass`, and both the
exception path and an empty result list fall through to
`return None, "No results"`. -/
def search_scholar_by_ref_text (refText : String) (apiKey targetTitle : Option String)
    (w : GetDictOutcome) : Except Unit (Option String × String) :=
  .ok (
    if !(pyTruthyO apiKey) then (none, "No API Key")
    else
      let body : Except Unit (Option (Option String × String)) :=
        match w with
        | .exn => .error ()
        | .ok d =>
            match d.organic with
            | some (e :: _) =>
                if pyTruthyO targetTitle && !(_is_match targetTitle (some (e.title.getD "")))
                then .ok (some (none, "Title mismatch in fallback"))
                else .ok (some (e.link, "similar"))
            | _ => .ok none
      match body with
      | .ok (some v) => v
      | _ => (none, "No results"))

/-- One Semantic Scholar record: `title`, `url`, `authors`. -/
structure S2Item where
  title : Option String := none
  url : Option String := none
  authors : List AuthorVal := []

/-- `data.get('data')` of the S2 search response. -/
structure S2Body where
  data : List S2Item := []

/-- `api_clients.py::search_s2_by_title(title, author)`: retry call, then
title and author checks on the first record (`data['data'][0]` is guarded by
the truthiness of `data.get('data')`, so every reachable operation is
total); all failure paths return the diagnostic, the final one propagating
the retry status. -/
def search_s2_by_title (title : String) (author : Option String) (w1 w2 : HttpTry S2Body) :
    Except Unit (Option String × String) :=
  .ok (
    let r := _call_external_api_with_retry w1 w2
    match r.1 with
    | some d =>
        if r.2 = "OK" then
          match d.data with
          | m :: _ =>
              if _is_match (some title) m.title then
                if _check_author_match author m.authors then (m.url, "OK")
                else (none, "Author mismatch")
              else (none, "Match failed")
          | [] => (none, r.2)
        else (none, r.2)
    | none => (none, r.2))

/-- One OpenAlex work: `title`, `doi`, `id`, and the `authorships` list,
each entry `some displayName?` iff it carries an `author` key
(`display_name` defaulting to `""`). -/
structure OAItem where
  title : Option String := none
  doi : Option String := none
  id : Option String := none
  authorships : List (Option (Option String)) := []

/-- `data.get('results')` of the OpenAlex response. -/
structure OABody where
  results : List OAItem := []

/-- `api_clients.py::search_openalex_by_title(title, author)`: retry call,
flatten the authorships, title and author checks on the first work, link =
`match.get('doi') or match.get('id')`; the final return maps an "OK" status
with no results to `"No results found"`. -/
def search_openalex_by_title (title : String) (author : Option String) (w1 w2 : HttpTry OABody) :
    Except Unit (Option String × String) :=
  .ok (
    let r := _call_external_api_with_retry w1 w2
    let fallback : Option String × String :=
      (none, if r.2 ≠ "OK" then r.2 else "No results found")
    match r.1 with
    | some d =>
        if r.2 = "OK" then
          match d.results with
          | m :: _ =>
              let resAuthors :=
                (m.authorships.filterMap (fun a => a)).map (fun dn => AuthorVal.astr (dn.getD ""))
              if _is_match (some title) m.title then
                if _check_author_match author resAuthors then
                  let url := if pyTruthyO m.doi then m.doi else m.id
                  if pyTruthyO url then (url, "OK") else (none, "No Link")
                else (none, "Author mismatch")
              else (none, "Title mismatch")
          | [] => fallback
        else fallback
    | none => fallback)

/-- Outcome of the `requests.head` call of `check_url_availability`. -/
inductive HeadOutcome where
  | exn
  | resp (status : Nat)

/-- `api_clients.py::check_url_availability(url)`: `False` for a falsy or
non-`http` URL and for the bare-domain heuristic (`url.count('/') < 3`);
otherwise a HEAD request whose raise is caught (`except: return False`) and
whose status must satisfy `200 <= status < 400`. -/
def check_url_availability (url : Option String) (w : HeadOutcome) : Except Unit Bool :=
  .ok (
    if !(pyTruthyO url) || !("http".data.isPrefixOf (url.getD "").data) then false
    else if ((url.getD "").data.filter (· = '/')).length < 3 then false
    else
      match w with
      | .exn => false
      | .resp s => decide (200 ≤ s) && decide (s < 400))

/-!
## Claim C3 — connector error absorption
-/

/-- C3 (counterexample): two connectors can raise past their boundary.
`search_scholar_by_title` does not guard `search.get_dict()`, so a transport
failure propagates (its caller in `check_single_task` compensates with a
bare `except`); and `search_crossref_by_text` evaluates
`item.get('title', [''])[0]`, which raises `IndexError` on a result item
carrying `title: []`. -/
theorem C3_counterexample :
    search_scholar_by_title "Any Title" none (some "Smith") (some "raw text")
      (fun _ => .exn) = .error () ∧
    search_crossref_by_text "Some Title" none
      (.resp 200 (some { items := [{ title := some [] }] })) (.resp 200 none) = .error () := by
  constructor <;> rfl

/-- C3 (amended): every listed connector **except** `search_scholar_by_title`
and `search_crossref_by_text` never raises past its boundary: for all inputs
and all transport outcomes (including raised requests, undecodable bodies,
auth failures and empty results) it returns a "no candidate"/result value
plus a diagnostic string. -/
theorem C3_amended_absorption :
    (∀ doi tt w, ∃ v, search_crossref_by_doi doi tt w = .ok v) ∧
    (∀ t k a w1 w2, ∃ v, search_scopus_by_title t k a w1 w2 = .ok v) ∧
    (∀ rt k tt w, ∃ v, search_scholar_by_ref_text rt k tt w = .ok v) ∧
    (∀ t a w1 w2, ∃ v, search_s2_by_title t a w1 w2 = .ok v) ∧
    (∀ t a w1 w2, ∃ v, search_openalex_by_title t a w1 w2 = .ok v) ∧
    (∀ u w, ∃ v, check_url_availability u w = .ok v) := by
  refine ⟨fun doi tt w => ?_, fun t k a w1 w2 => ⟨_, rfl⟩, fun rt k tt w => ⟨_, rfl⟩,
    fun t a w1 w2 => ⟨_, rfl⟩, fun t a w1 w2 => ⟨_, rfl⟩, fun u w => ⟨_, rfl⟩⟩
  unfold search_crossref_by_doi
  split
  · exact ⟨_, rfl⟩
  · exact ⟨_, rfl⟩

/-!
## `app.py::check_single_task` — the resolution orchestrator

The orchestrator is modelled over a `ConnEnv` of connector outcomes: each
field is the value returned by the corresponding `api_clients` call
(quantifying over `ConnEnv` quantifies over every behaviour the connectors
can exhibit, including `search_scholar_by_title` raising).  The result is
paired with the trace of connectors actually invoked, in invocation order;
`Conn.s2`/`Conn.openalex` exist in the trace alphabet because the source
imports `search_s2_by_title`/`search_openalex_by_title`, but
`check_single_task` contains no call to either.
-/

/-- The connectors `check_single_task` could invoke. -/
inductive Conn where
  | localDB
  | crossrefDoi
  | crossrefText
  | scopus
  | s2
  | openalex
  | scholar
  | scholarRefText
  | urlCheck
deriving DecidableEq

/-- The per-reference result dict built by `check_single_task`
(the `ResolutionResult` of the spec): `sources` is an insertion-ordered
mapping, `found_at_step` the stage label, `suggestion` the weak-candidate
URL. -/
structure RRes where
  id : Nat
  title : String := ""
  text : String := ""
  sources : List (String × String) := []
  found_at_step : Option String := none
  suggestion : Option String := none
deriving DecidableEq

/-- Connector outcomes for one orchestrator run: `localHit` is whether
`search_local_database` returned a row at threshold 0.85; the `…Url` fields
are the URL component returned by the respective connector; `scholarRes` is
`Except.error ()` when `search_scholar_by_title` raised; `urlOk` is the
value of `check_url_availability`. -/
structure ConnEnv where
  localHit : Bool := false
  crDoiUrl : Option String := none
  crTextUrl : Option String := none
  scopusUrl : Option String := none
  scholarRes : Except Unit (Option String) := Except.ok none
  refTextUrl : Option String := none
  urlOk : Bool := false

/-- `bool(re.search(r'[一-鿿]', s))`. -/
def hasCJK (s : String) : Bool :=
  s.data.any (fun c => decide (0x4e00 ≤ c.toNat) && decide (c.toNat ≤ 0x9fff))

/-- `ref['authors'].split(';')[0].split(',')[0].strip() if ref.get('authors')
else ""`; after `refine_parsed_data`, a truthy `authors` field is always a
flattened string. -/
def firstAuthorOf (a : Option PyVal) : String :=
  if pyValTruthy a then
    match a with
    | some (.pstr s) => pyStrip ⟨(s.data.takeWhile (· ≠ ';')).takeWhile (· ≠ ',')⟩
    | _ => ""
  else ""

/-- Stage 6 of `check_single_task` (`# 5. Website Check`): when the
reference carries a truthy URL starting with `http`, invoke
`check_url_availability`; success records a `Direct Link` source with label
`6. Website / Direct URL`, failure records a `Direct Link (Dead)` source
with label `6. Website (Link Failed)`; otherwise the result passes through
unchanged. -/
def stage6 (env : ConnEnv) (parsedUrl : Option String) (res : RRes) (tr : List Conn) :
    RRes × List Conn :=
  if pyTruthyO parsedUrl && "http".data.isPrefixOf (parsedUrl.getD "").data then
    if env.urlOk then
      let r := { res with sources := [("Direct Link", parsedUrl.getD "")], found_at_step := some "6. Website / Direct URL" }
      (r, tr ++ [Conn.urlCheck])
    else
      let r := { res with sources := [("Direct Link (Dead)", parsedUrl.getD "")], found_at_step := some "6. Website (Link Failed)" }
      (r, tr ++ [Conn.urlCheck])
  else (res, tr)

/-- The suggestion step (`# 4. Suggestion (Scholar Text Search)`): only with
a SerpAPI key, invoke `search_scholar_by_ref_text`; a truthy URL is stored
in `suggestion` and the cascade continues to stage 6 either way. -/
def stageSuggest (env : ConnEnv) (serpKey parsedUrl : Option String) (res0 : RRes)
    (tr : List Conn) : RRes × List Conn :=
  if pyTruthyO serpKey then
    if pyTruthyO env.refTextUrl then
      stage6 env parsedUrl { res0 with suggestion := env.refTextUrl } (tr ++ [Conn.scholarRefText])
    else stage6 env parsedUrl res0 (tr ++ [Conn.scholarRefText])
  else stage6 env parsedUrl res0 tr

/-- The Google Scholar stage (the source's single-element `for` loop over
one lambda, wrapped in `try/except: pass`, invoked regardless of the SerpAPI
key): a raised call or a non-truthy URL falls through to the suggestion
step; a truthy URL freezes the result with label `5. Google Scholar`. -/
def stageScholar (env : ConnEnv) (serpKey parsedUrl : Option String) (res0 : RRes)
    (tr : List Conn) : RRes × List Conn :=
  match env.scholarRes with
  | .error _ => stageSuggest env serpKey parsedUrl res0 (tr ++ [Conn.scholar])
  | .ok u =>
      if pyTruthyO u then
        let r := { res0 with sources := [("Google Scholar", u.getD "")], found_at_step := some "5. Google Scholar" }
        (r, tr ++ [Conn.scholar])
      else stageSuggest env serpKey parsedUrl res0 (tr ++ [Conn.scholar])

/-- The Scopus stage: only with an API key; a truthy URL freezes the result
with label `2. Scopus`. -/
def stageScopus (env : ConnEnv) (scopusKey serpKey parsedUrl : Option String) (res0 : RRes)
    (tr : List Conn) : RRes × List Conn :=
  if pyTruthyO scopusKey then
    if pyTruthyO env.scopusUrl then
      let r := { res0 with sources := [("Scopus", env.scopusUrl.getD "")], found_at_step := some "2. Scopus" }
      (r, tr ++ [Conn.scopus])
    else stageScholar env serpKey parsedUrl res0 (tr ++ [Conn.scopus])
  else stageScholar env serpKey parsedUrl res0 tr

/-- The Crossref free-text stage (invoked unconditionally): a truthy URL
freezes the result with label `1. Crossref (Search)`. -/
def stageCrText (env : ConnEnv) (scopusKey serpKey parsedUrl : Option String) (res0 : RRes)
    (tr : List Conn) : RRes × List Conn :=
  if pyTruthyO env.crTextUrl then
    let r := { res0 with sources := [("Crossref", env.crTextUrl.getD "")], found_at_step := some "1. Crossref (Search)" }
    (r, tr ++ [Conn.crossrefText])
  else stageScopus env scopusKey serpKey parsedUrl res0 (tr ++ [Conn.crossrefText])

/-- The Crossref DOI stage: only when a truthy DOI is present; a truthy URL
freezes the result with label `1. Crossref (DOI)`. -/
def stageCrDoi (env : ConnEnv) (doi scopusKey serpKey parsedUrl : Option String) (res0 : RRes)
    (tr : List Conn) : RRes × List Conn :=
  if pyTruthyO doi then
    if pyTruthyO env.crDoiUrl then
      let r := { res0 with sources := [("Crossref", env.crDoiUrl.getD "")], found_at_step := some "1. Crossref (DOI)" }
      (r, tr ++ [Conn.crossrefDoi])
    else stageCrText env scopusKey serpKey parsedUrl res0 (tr ++ [Conn.crossrefDoi])
  else stageCrText env scopusKey serpKey parsedUrl res0 tr

/-- The body of `app.py::check_single_task` after the initial
`refine_parsed_data` call, over the refined reference: the local-DB stage
(only when the search query contains CJK characters, a local table is
loaded and the title is truthy), then the connector cascade above, each
stage written as its own definition in source order.  Each acceptance
freezes the result and returns. -/
def checkCore (idx : Nat) (ref : NRef) (localDbLoaded : Bool) (scopusKey serpKey : Option String)
    (env : ConnEnv) : RRes × List Conn :=
  let title := ref.title.getD ""
  let text := ref.text
  let searchQuery : String :=
    if title ≠ "" && title.length > 8 then title else ⟨text.data.take 120⟩
  let doi := ref.doi
  let parsedUrl := ref.url
  let _firstAuthor := firstAuthorOf ref.authors
  let res0 : RRes := { id := idx, title := title, text := text }
  if hasCJK searchQuery && localDbLoaded && title ≠ "" then
    if env.localHit then
      let r := { res0 with sources := [("Local DB", "匹配成功")], found_at_step := some "0. Local Database" }
      (r, [Conn.localDB])
    else stageCrDoi env doi scopusKey serpKey parsedUrl res0 [Conn.localDB]
  else stageCrDoi env doi scopusKey serpKey parsedUrl res0 []

/-- `app.py::check_single_task(idx, raw_ref, local_df, target_col,
scopus_key, serpapi_key)`: normalize the raw reference, then run the
cascade. -/
def check_single_task (idx : Nat) (raw : PRef) (lit : String → Option PyVal)
    (localDbLoaded : Bool) (scopusKey serpKey : Option String) (env : ConnEnv) :
    RRes × List Conn :=
  checkCore idx (refine_parsed_data lit raw) localDbLoaded scopusKey serpKey env

/-!
## Claims C1, C2, C6 — orchestrator control flow

`connOrder` places each connector at its cascade position; `stepOrder` maps
an accepting stage label to the position of the connector that produced it
(the two `6. Website` labels map to the final position).  The `L…` lemmas
establish the short-circuit property stage by stage; the `A…` lemmas bound
the alphabet of the invocation trace; the `reach…` lemmas show the Scholar
stage is reached when every earlier stage misses; the `g…` lemmas compute
the dead-link outcome.
-/

/-- Cascade position of each connector. -/
def connOrder : Conn → Nat
  | .localDB => 0
  | .crossrefDoi => 1
  | .crossrefText => 2
  | .scopus => 3
  | .s2 => 4
  | .openalex => 4
  | .scholar => 5
  | .scholarRefText => 6
  | .urlCheck => 7

/-- Cascade position of the connector that produces a given stage label. -/
def stepOrder (l : String) : Nat :=
  if l = "0. Local Database" then 0
  else if l = "1. Crossref (DOI)" then 1
  else if l = "1. Crossref (Search)" then 2
  else if l = "2. Scopus" then 3
  else if l = "5. Google Scholar" then 5
  else 7

theorem extBound {tr : List Conn} {k m : Nat} (htr : ∀ c ∈ tr, connOrder c ≤ k) (hkm : k ≤ m)
    (x : Conn) (hx : connOrder x ≤ m) : ∀ c ∈ tr ++ [x], connOrder c ≤ m := by
  intro c hc
  rcases List.mem_append.mp hc with h1 | h1
  · exact le_trans (htr c h1) hkm
  · rw [List.mem_singleton.mp h1]; exact hx

/-- The short-circuit property at a result: one source entry, and every
invoked connector at or before the accepting stage. -/
def shortP (out : RRes × List Conn) (l : String) : Prop :=
  out.1.sources.length = 1 ∧ ∀ c ∈ out.2, connOrder c ≤ stepOrder l

theorem L6 (env : ConnEnv) (u : Option String) (res : RRes) (tr : List Conn)
    (hres : res.found_at_step = none) (htr : ∀ c ∈ tr, connOrder c ≤ 7) :
    ∀ l, (stage6 env u res tr).1.found_at_step = some l → shortP (stage6 env u res tr) l := by
  unfold stage6 shortP
  split
  · split
    all_goals intro l h
    all_goals injection h with h
    all_goals subst h
    all_goals exact ⟨rfl, extBound htr (by decide) _ (by decide)⟩
  · intro l h
    rw [hres] at h
    exact Option.noConfusion h

theorem LSug (env : ConnEnv) (spk u : Option String) (res0 : RRes) (tr : List Conn)
    (hres : res0.found_at_step = none) (htr : ∀ c ∈ tr, connOrder c ≤ 6) :
    ∀ l, (stageSuggest env spk u res0 tr).1.found_at_step = some l →
      shortP (stageSuggest env spk u res0 tr) l := by
  unfold stageSuggest
  split
  · split
    · exact L6 env u _ _ hres (extBound htr (by decide) _ (by decide))
    · exact L6 env u _ _ hres (extBound htr (by decide) _ (by decide))
  · exact L6 env u _ _ hres (fun c hc => le_trans (htr c hc) (by decide))

theorem LSch (env : ConnEnv) (spk u : Option String) (res0 : RRes) (tr : List Conn)
    (hres : res0.found_at_step = none) (htr : ∀ c ∈ tr, connOrder c ≤ 5) :
    ∀ l, (stageScholar env spk u res0 tr).1.found_at_step = some l →
      shortP (stageScholar env spk u res0 tr) l := by
  unfold stageScholar
  split
  · exact LSug env spk u res0 _ hres (extBound htr (by decide) _ (by decide))
  · split
    · intro l h
      injection h with h
      subst h
      exact ⟨rfl, extBound htr (by decide) _ (by decide)⟩
    · exact LSug env spk u res0 _ hres (extBound htr (by decide) _ (by decide))

theorem LScop (env : ConnEnv) (sk spk u : Option String) (res0 : RRes) (tr : List Conn)
    (hres : res0.found_at_step = none) (htr : ∀ c ∈ tr, connOrder c ≤ 3) :
    ∀ l, (stageScopus env sk spk u res0 tr).1.found_at_step = some l →
      shortP (stageScopus env sk spk u res0 tr) l := by
  unfold stageScopus
  split
  · split
    · intro l h
      injection h with h
      subst h
      exact ⟨rfl, extBound htr (by decide) _ (by decide)⟩
    · exact LSch env spk u res0 _ hres (extBound htr (by decide) _ (by decide))
  · exact LSch env spk u res0 _ hres (fun c hc => le_trans (htr c hc) (by decide))

theorem LCrT (env : ConnEnv) (sk spk u : Option String) (res0 : RRes) (tr : List Conn)
    (hres : res0.found_at_step = none) (htr : ∀ c ∈ tr, connOrder c ≤ 2) :
    ∀ l, (stageCrText env sk spk u res0 tr).1.found_at_step = some l →
      shortP (stageCrText env sk spk u res0 tr) l := by
  unfold stageCrText
  split
  · intro l h
    injection h with h
    subst h
    exact ⟨rfl, extBound htr (by decide) _ (by decide)⟩
  · exact LScop env sk spk u res0 _ hres (extBound htr (by decide) _ (by decide))

theorem LCrD (env : ConnEnv) (d sk spk u : Option String) (res0 : RRes) (tr : List Conn)
    (hres : res0.found_at_step = none) (htr : ∀ c ∈ tr, connOrder c ≤ 1) :
    ∀ l, (stageCrDoi env d sk spk u res0 tr).1.found_at_step = some l →
      shortP (stageCrDoi env d sk spk u res0 tr) l := by
  unfold stageCrDoi
  split
  · split
    · intro l h
      injection h with h
      subst h
      exact ⟨rfl, extBound htr (by decide) _ (by decide)⟩
    · exact LCrT env sk spk u res0 _ hres (extBound htr (by decide) _ (by decide))
  · exact LCrT env sk spk u res0 _ hres (fun c hc => le_trans (htr c hc) (by decide))

theorem LCheck (idx : Nat) (ref : NRef) (ldb : Bool) (sk spk : Option String) (env : ConnEnv) :
    ∀ l, (checkCore idx ref ldb sk spk env).1.found_at_step = some l →
      shortP (checkCore idx ref ldb sk spk env) l := by
  intro l
  simp only [checkCore]
  repeat' split
  all_goals first
    | exact LCrD env _ sk spk _ _ _ rfl (by decide) l
    | (intro h; injection h with h; subst h; refine ⟨rfl, ?_⟩; intro c hc; simp at hc;
       subst hc; decide)

theorem A6 (env : ConnEnv) (u : Option String) (res : RRes) (tr : List Conn) (c : Conn) :
    c ∈ (stage6 env u res tr).2 → c ∈ tr ∨ c = Conn.urlCheck := by
  unfold stage6
  repeat' split
  all_goals intro hc
  all_goals simp [List.mem_append] at hc
  all_goals tauto

theorem ASug (env : ConnEnv) (spk u : Option String) (res0 : RRes) (tr : List Conn) (c : Conn) :
    c ∈ (stageSuggest env spk u res0 tr).2 →
      c ∈ tr ∨ c = Conn.scholarRefText ∨ c = Conn.urlCheck := by
  unfold stageSuggest
  repeat' split
  all_goals intro hc
  all_goals rcases A6 _ _ _ _ _ hc with h | h
  all_goals simp_all [List.mem_append]
  all_goals tauto

theorem ASch (env : ConnEnv) (spk u : Option String) (res0 : RRes) (tr : List Conn) (c : Conn) :
    c ∈ (stageScholar env spk u res0 tr).2 →
      c ∈ tr ∨ c = Conn.scholar ∨ c = Conn.scholarRefText ∨ c = Conn.urlCheck := by
  unfold stageScholar
  repeat' split
  · intro hc
    rcases ASug _ _ _ _ _ _ hc with h | h
    · simp_all [List.mem_append]; tauto
    · tauto
  · intro hc
    simp [List.mem_append] at hc
    tauto
  · intro hc
    rcases ASug _ _ _ _ _ _ hc with h | h
    · simp_all [List.mem_append]; tauto
    · tauto

theorem AScop (env : ConnEnv) (sk spk u : Option String) (res0 : RRes) (tr : List Conn) (c : Conn) :
    c ∈ (stageScopus env sk spk u res0 tr).2 →
      c ∈ tr ∨ c = Conn.scopus ∨ c = Conn.scholar ∨ c = Conn.scholarRefText ∨
        c = Conn.urlCheck := by
  unfold stageScopus
  repeat' split
  · intro hc
    simp [List.mem_append] at hc
    tauto
  · intro hc
    rcases ASch _ _ _ _ _ _ hc with h | h
    · simp_all [List.mem_append]; tauto
    · tauto
  · intro hc
    rcases ASch _ _ _ _ _ _ hc with h | h
    · tauto
    · tauto

theorem ACrT (env : ConnEnv) (sk spk u : Option String) (res0 : RRes) (tr : List Conn) (c : Conn) :
    c ∈ (stageCrText env sk spk u res0 tr).2 →
      c ∈ tr ∨ c = Conn.crossrefText ∨ c = Conn.scopus ∨ c = Conn.scholar ∨
        c = Conn.scholarRefText ∨ c = Conn.urlCheck := by
  unfold stageCrText
  repeat' split
  · intro hc
    simp [List.mem_append] at hc
    tauto
  · intro hc
    rcases AScop _ _ _ _ _ _ _ hc with h | h
    · simp_all [List.mem_append]; tauto
    · tauto

theorem ACrD (env : ConnEnv) (d sk spk u : Option String) (res0 : RRes) (tr : List Conn)
    (c : Conn) :
    c ∈ (stageCrDoi env d sk spk u res0 tr).2 →
      c ∈ tr ∨ c = Conn.crossrefDoi ∨ c = Conn.crossrefText ∨ c = Conn.scopus ∨
        c = Conn.scholar ∨ c = Conn.scholarRefText ∨ c = Conn.urlCheck := by
  unfold stageCrDoi
  repeat' split
  · intro hc
    simp [List.mem_append] at hc
    tauto
  · intro hc
    rcases ACrT _ _ _ _ _ _ _ hc with h | h
    · simp_all [List.mem_append]; tauto
    · tauto
  · intro hc
    rcases ACrT _ _ _ _ _ _ _ hc with h | h
    · tauto
    · tauto

theorem ACheck (idx : Nat) (ref : NRef) (ldb : Bool) (sk spk : Option String) (env : ConnEnv)
    (c : Conn) :
    c ∈ (checkCore idx ref ldb sk spk env).2 → c ≠ Conn.s2 ∧ c ≠ Conn.openalex := by
  simp only [checkCore]
  repeat' split
  all_goals intro hc
  all_goals try (rcases ACrD _ _ _ _ _ _ _ _ hc with h | h | h | h | h | h | h <;> simp_all)
  all_goals simp_all

theorem pre6 (env : ConnEnv) (u : Option String) (res : RRes) (tr : List Conn) (c : Conn)
    (hc : c ∈ tr) : c ∈ (stage6 env u res tr).2 := by
  unfold stage6
  repeat' split
  all_goals simp [List.mem_append]
  all_goals tauto

theorem preSug (env : ConnEnv) (spk u : Option String) (res0 : RRes) (tr : List Conn) (c : Conn)
    (hc : c ∈ tr) : c ∈ (stageSuggest env spk u res0 tr).2 := by
  unfold stageSuggest
  repeat' split
  all_goals apply pre6
  all_goals first
    | exact hc
    | (simp [List.mem_append]; tauto)

theorem reachSch (env : ConnEnv) (spk u : Option String) (res0 : RRes) (tr : List Conn) :
    Conn.scholar ∈ (stageScholar env spk u res0 tr).2 := by
  unfold stageScholar
  repeat' split
  · exact preSug _ _ _ _ _ _ (by simp)
  · simp
  · exact preSug _ _ _ _ _ _ (by simp)

theorem reachScop (env : ConnEnv) (sk spk u : Option String) (res0 : RRes) (tr : List Conn)
    (h4 : pyTruthyO env.scopusUrl = false) :
    Conn.scholar ∈ (stageScopus env sk spk u res0 tr).2 := by
  unfold stageScopus
  repeat' split
  · simp_all
  · exact reachSch _ _ _ _ _
  · exact reachSch _ _ _ _ _

theorem reachCrT (env : ConnEnv) (sk spk u : Option String) (res0 : RRes) (tr : List Conn)
    (h3 : pyTruthyO env.crTextUrl = false) (h4 : pyTruthyO env.scopusUrl = false) :
    Conn.scholar ∈ (stageCrText env sk spk u res0 tr).2 := by
  unfold stageCrText
  split
  · simp_all
  · exact reachScop _ _ _ _ _ _ h4

theorem reachCrD (env : ConnEnv) (d sk spk u : Option String) (res0 : RRes) (tr : List Conn)
    (h2 : pyTruthyO env.crDoiUrl = false) (h3 : pyTruthyO env.crTextUrl = false)
    (h4 : pyTruthyO env.scopusUrl = false) :
    Conn.scholar ∈ (stageCrDoi env d sk spk u res0 tr).2 := by
  unfold stageCrDoi
  repeat' split
  · simp_all
  · exact reachCrT _ _ _ _ _ _ h3 h4
  · exact reachCrT _ _ _ _ _ _ h3 h4

theorem reachCheck (idx : Nat) (ref : NRef) (ldb : Bool) (sk spk : Option String) (env : ConnEnv)
    (h1 : env.localHit = false) (h2 : pyTruthyO env.crDoiUrl = false)
    (h3 : pyTruthyO env.crTextUrl = false) (h4 : pyTruthyO env.scopusUrl = false) :
    Conn.scholar ∈ (checkCore idx ref ldb sk spk env).2 := by
  simp only [checkCore]
  repeat' split
  all_goals try exact reachCrD _ _ _ _ _ _ _ h2 h3 h4
  all_goals simp_all

/-- The Scholar stage produced no accepted URL: either the call raised or it
returned a falsy URL. -/
def scholarMiss (e : Except Unit (Option String)) : Prop :=
  ∀ u, e = Except.ok u → pyTruthyO u = false

/-- The dead-link outcome recorded at a result. -/
def deadLinkP (u : Option String) (out : RRes × List Conn) : Prop :=
  out.1.found_at_step = some "6. Website (Link Failed)" ∧
  out.1.sources = [("Direct Link (Dead)", u.getD "")]

theorem g6 (env : ConnEnv) (u : Option String) (res : RRes) (tr : List Conn)
    (hu : pyTruthyO u = true) (hp : "http".data.isPrefixOf (u.getD "").data = true)
    (hok : env.urlOk = false) : deadLinkP u (stage6 env u res tr) := by
  unfold stage6 deadLinkP
  simp [hu, hp, hok]

theorem gSug (env : ConnEnv) (spk u : Option String) (res0 : RRes) (tr : List Conn)
    (hu : pyTruthyO u = true) (hp : "http".data.isPrefixOf (u.getD "").data = true)
    (hok : env.urlOk = false) : deadLinkP u (stageSuggest env spk u res0 tr) := by
  unfold stageSuggest
  repeat' split
  all_goals exact g6 _ _ _ _ hu hp hok

theorem gSch (env : ConnEnv) (spk u : Option String) (res0 : RRes) (tr : List Conn)
    (h5 : scholarMiss env.scholarRes)
    (hu : pyTruthyO u = true) (hp : "http".data.isPrefixOf (u.getD "").data = true)
    (hok : env.urlOk = false) : deadLinkP u (stageScholar env spk u res0 tr) := by
  unfold stageScholar
  repeat' split
  · exact gSug _ _ _ _ _ hu hp hok
  · rename_i u' heq hut
    rw [h5 u' heq] at hut
    exact absurd hut (by simp)
  · exact gSug _ _ _ _ _ hu hp hok

theorem gScop (env : ConnEnv) (sk spk u : Option String) (res0 : RRes) (tr : List Conn)
    (h4 : pyTruthyO env.scopusUrl = false) (h5 : scholarMiss env.scholarRes)
    (hu : pyTruthyO u = true) (hp : "http".data.isPrefixOf (u.getD "").data = true)
    (hok : env.urlOk = false) : deadLinkP u (stageScopus env sk spk u res0 tr) := by
  unfold stageScopus
  repeat' split
  · simp_all
  · exact gSch _ _ _ _ _ h5 hu hp hok
  · exact gSch _ _ _ _ _ h5 hu hp hok

theorem gCrT (env : ConnEnv) (sk spk u : Option String) (res0 : RRes) (tr : List Conn)
    (h3 : pyTruthyO env.crTextUrl = false) (h4 : pyTruthyO env.scopusUrl = false)
    (h5 : scholarMiss env.scholarRes)
    (hu : pyTruthyO u = true) (hp : "http".data.isPrefixOf (u.getD "").data = true)
    (hok : env.urlOk = false) : deadLinkP u (stageCrText env sk spk u res0 tr) := by
  unfold stageCrText
  split
  · simp_all
  · exact gScop _ _ _ _ _ _ h4 h5 hu hp hok

theorem gCrD (env : ConnEnv) (d sk spk u : Option String) (res0 : RRes) (tr : List Conn)
    (h2 : pyTruthyO env.crDoiUrl = false) (h3 : pyTruthyO env.crTextUrl = false)
    (h4 : pyTruthyO env.scopusUrl = false) (h5 : scholarMiss env.scholarRes)
    (hu : pyTruthyO u = true) (hp : "http".data.isPrefixOf (u.getD "").data = true)
    (hok : env.urlOk = false) : deadLinkP u (stageCrDoi env d sk spk u res0 tr) := by
  unfold stageCrDoi
  repeat' split
  · simp_all
  · exact gCrT _ _ _ _ _ _ h3 h4 h5 hu hp hok
  · exact gCrT _ _ _ _ _ _ h3 h4 h5 hu hp hok

theorem gCheck (idx : Nat) (ref : NRef) (ldb : Bool) (sk spk : Option String) (env : ConnEnv)
    (h1 : env.localHit = false) (h2 : pyTruthyO env.crDoiUrl = false)
    (h3 : pyTruthyO env.crTextUrl = false) (h4 : pyTruthyO env.scopusUrl = false)
    (h5 : scholarMiss env.scholarRes)
    (hu : pyTruthyO ref.url = true) (hp : "http".data.isPrefixOf (ref.url.getD "").data = true)
    (hok : env.urlOk = false) : deadLinkP ref.url (checkCore idx ref ldb sk spk env) := by
  simp only [checkCore]
  repeat' split
  all_goals try exact gCrD _ _ _ _ _ _ _ h2 h3 h4 h5 hu hp hok
  all_goals simp_all

/-- C6 (confirmed): whenever one invocation of `check_single_task` freezes a
result with some stage label, the `sources` mapping has exactly one entry and
every connector in the invocation trace belongs to a stage no later than the
accepting one — in particular no connector after the accepting stage was
invoked. -/
theorem C6_short_circuit (idx : Nat) (raw : PRef) (lit : String → Option PyVal) (ldb : Bool)
    (sk spk : Option String) (env : ConnEnv) (l : String)
    (h : (check_single_task idx raw lit ldb sk spk env).1.found_at_step = some l) :
    (check_single_task idx raw lit ldb sk spk env).1.sources.length = 1 ∧
    ∀ c ∈ (check_single_task idx raw lit ldb sk spk env).2, connOrder c ≤ stepOrder l :=
  LCheck idx (refine_parsed_data lit raw) ldb sk spk env l h

/-- C6 (witness): the theorem applied at a concrete run that accepts at the
Scopus stage. -/
theorem C6_short_circuit_witness :
    (check_single_task 1 { text := "t", title := some "A Long Enough Title" } (fun _ => none)
        false (some "k") (some "s") { scopusUrl := some "http://scopus/x" }).1.found_at_step =
      some "2. Scopus" ∧
    ((check_single_task 1 { text := "t", title := some "A Long Enough Title" } (fun _ => none)
        false (some "k") (some "s") { scopusUrl := some "http://scopus/x" }).1.sources.length = 1 ∧
     ∀ c ∈ (check_single_task 1 { text := "t", title := some "A Long Enough Title" }
        (fun _ => none) false (some "k") (some "s")
        { scopusUrl := some "http://scopus/x" }).2, connOrder c ≤ stepOrder "2. Scopus") :=
  ⟨by decide, C6_short_circuit 1 { text := "t", title := some "A Long Enough Title" } (fun _ => none)
    false (some "k") (some "s") { scopusUrl := some "http://scopus/x" } "2. Scopus" (by decide)⟩

/-- C1 (counterexample): a concrete run in which the local table, Crossref
and Scopus all declined (the result's stage label is still `none` at the
end), the stage-5 Scholar connector was invoked, and the Semantic Scholar /
OpenAlex connector was **not** invoked — refuting the claimed stage-3
invocation. -/
theorem C1_counterexample :
    ((check_single_task 1 { text := "Some Reference Text", title := some "A Sufficiently Long Title" }
        (fun _ => none) true (some "k") (some "s") {}).1.found_at_step = none) ∧
    Conn.scholar ∈ (check_single_task 1
        { text := "Some Reference Text", title := some "A Sufficiently Long Title" }
        (fun _ => none) true (some "k") (some "s") {}).2 ∧
    Conn.s2 ∉ (check_single_task 1
        { text := "Some Reference Text", title := some "A Sufficiently Long Title" }
        (fun _ => none) true (some "k") (some "s") {}).2 ∧
    Conn.openalex ∉ (check_single_task 1
        { text := "Some Reference Text", title := some "A Sufficiently Long Title" }
        (fun _ => none) true (some "k") (some "s") {}).2 := by
  refine ⟨by decide, by decide, by decide, by decide⟩

/-- C1 (amended): the orchestrator never invokes the Semantic Scholar /
OpenAlex connector (`search_s2_by_title` / `search_openalex_by_title` are
imported by app.py but never called): whenever the resolution reaches stage
3 without an accepted match (local table, Crossref and Scopus all declined),
`check_single_task` proceeds directly to the stage-5 Scholar web search. -/
theorem C1_amended_s2_never_invoked (idx : Nat) (raw : PRef) (lit : String → Option PyVal) (ldb : Bool)
    (sk spk : Option String) (env : ConnEnv)
    (h1 : env.localHit = false) (h2 : pyTruthyO env.crDoiUrl = false)
    (h3 : pyTruthyO env.crTextUrl = false) (h4 : pyTruthyO env.scopusUrl = false) :
    Conn.scholar ∈ (check_single_task idx raw lit ldb sk spk env).2 ∧
    Conn.s2 ∉ (check_single_task idx raw lit ldb sk spk env).2 ∧
    Conn.openalex ∉ (check_single_task idx raw lit ldb sk spk env).2 :=
  ⟨reachCheck idx (refine_parsed_data lit raw) ldb sk spk env h1 h2 h3 h4,
   fun hc => (ACheck idx (refine_parsed_data lit raw) ldb sk spk env _ hc).1 rfl,
   fun hc => (ACheck idx (refine_parsed_data lit raw) ldb sk spk env _ hc).2 rfl⟩

/-- C1 (witness): the amended theorem applied at a concrete run where every
early stage declines. -/
theorem C1_amended_s2_never_invoked_witness :
    (({} : ConnEnv).localHit = false ∧ pyTruthyO ({} : ConnEnv).crDoiUrl = false ∧
     pyTruthyO ({} : ConnEnv).crTextUrl = false ∧ pyTruthyO ({} : ConnEnv).scopusUrl = false) ∧
    Conn.scholar ∈ (check_single_task 2 { text := "w" } (fun _ => none) false none none {}).2 ∧
    Conn.s2 ∉ (check_single_task 2 { text := "w" } (fun _ => none) false none none {}).2 ∧
    Conn.openalex ∉ (check_single_task 2 { text := "w" } (fun _ => none) false none none {}).2 :=
  ⟨⟨rfl, rfl, rfl, rfl⟩, C1_amended_s2_never_invoked 2 { text := "w" } (fun _ => none) false none none {} rfl rfl rfl rfl⟩

/-- C2 (counterexample): a concrete run whose direct-URL check fails: the
returned result's `sources` is **not** empty (it records
`{"Direct Link (Dead)": url}`) and `found_at_step` is **not** null (it is
`"6. Website (Link Failed)"`) — refuting the claimed silent absorption. -/
theorem C2_counterexample :
    (check_single_task 1 { text := "ref", url := some "http://example.com/a/b" } (fun _ => none)
        false none none {}).1.sources = [("Direct Link (Dead)", "http://example.com/a/b")] ∧
    (check_single_task 1 { text := "ref", url := some "http://example.com/a/b" } (fun _ => none)
        false none none {}).1.found_at_step = some "6. Website (Link Failed)" := by
  refine ⟨by decide, by decide⟩

/-- C2 (amended): for every reference that carries its own `http` URL and
reaches the direct-URL stage with no earlier stage accepting, a failed URL
check is still absorbed without an exception, but the dead link **is**
recorded: `found_at_step` becomes `"6. Website (Link Failed)"` and `sources`
gets the single entry `("Direct Link (Dead)", url)`. -/
theorem C2_amended_dead_link_recorded (idx : Nat) (raw : PRef) (lit : String → Option PyVal) (ldb : Bool)
    (sk spk : Option String) (env : ConnEnv)
    (h1 : env.localHit = false) (h2 : pyTruthyO env.crDoiUrl = false)
    (h3 : pyTruthyO env.crTextUrl = false) (h4 : pyTruthyO env.scopusUrl = false)
    (h5 : scholarMiss env.scholarRes)
    (hu : pyTruthyO (refine_parsed_data lit raw).url = true)
    (hp : "http".data.isPrefixOf ((refine_parsed_data lit raw).url.getD "").data = true)
    (hok : env.urlOk = false) :
    (check_single_task idx raw lit ldb sk spk env).1.found_at_step =
      some "6. Website (Link Failed)" ∧
    (check_single_task idx raw lit ldb sk spk env).1.sources =
      [("Direct Link (Dead)", (refine_parsed_data lit raw).url.getD "")] :=
  gCheck idx (refine_parsed_data lit raw) ldb sk spk env h1 h2 h3 h4 h5 hu hp hok

/-- C2 (witness): the amended theorem applied at a concrete run. -/
theorem C2_amended_dead_link_recorded_witness :
    (pyTruthyO (refine_parsed_data (fun _ => none)
        { text := "ref", url := some "http://example.com/a/b" }).url = true ∧
     ({} : ConnEnv).urlOk = false) ∧
    (check_single_task 1 { text := "ref", url := some "http://example.com/a/b" } (fun _ => none)
        false none none {}).1.found_at_step = some "6. Website (Link Failed)" :=
  ⟨⟨by decide, rfl⟩,
   (C2_amended_dead_link_recorded 1 { text := "ref", url := some "http://example.com/a/b" } (fun _ => none)
     false none none {} rfl rfl rfl rfl
     (fun u h => by injection h with h; subst h; rfl) (by decide) (by decide) rfl).1⟩

/-!
## Claim C7 — the batch dispatcher

`run_batch` models the `ThreadPoolExecutor` loop of app.py: the futures dict
`{executor.submit(check_single_task, i+1, r, ...): i}` assigns ids 1..N in
input order (`envs` supplies each worker's connector outcomes); the
`as_completed` collection order is modelled by quantifying over an arbitrary
permutation `buffer` of the results; `sortResults` is
`sorted(results_buffer, key=lambda x: x['id'])`.
-/

/-- The per-reference results produced by the worker pool, tagged with the
1-based input position. -/
def run_batch (lit : String → Option PyVal) (ldb : Bool) (sk spk : Option String)
    (envs : Nat → ConnEnv) (refs : List PRef) : List RRes :=
  ((List.range' 1 refs.length).zip refs).map
    (fun p => (check_single_task p.1 p.2 lit ldb sk spk (envs p.1)).1)

/-- The sort key `lambda x: x['id']`. -/
def idLe (a b : RRes) : Prop := a.id ≤ b.id

instance : DecidableRel idLe := fun a b => Nat.decLe a.id b.id

instance : IsTotal RRes idLe := ⟨fun a b => Nat.le_total a.id b.id⟩

instance : IsTrans RRes idLe := ⟨fun _ _ _ h1 h2 => Nat.le_trans h1 h2⟩

/-- `sorted(results_buffer, key=lambda x: x['id'])`. -/
def sortResults (buffer : List RRes) : List RRes := List.insertionSort idLe buffer

theorem id6 (env : ConnEnv) (u : Option String) (res : RRes) (tr : List Conn) :
    (stage6 env u res tr).1.id = res.id := by
  unfold stage6
  split
  · split <;> rfl
  · rfl

theorem idSug (env : ConnEnv) (spk u : Option String) (res0 : RRes) (tr : List Conn) :
    (stageSuggest env spk u res0 tr).1.id = res0.id := by
  unfold stageSuggest
  split
  · split <;> rw [id6]
  · rw [id6]

theorem idSch (env : ConnEnv) (spk u : Option String) (res0 : RRes) (tr : List Conn) :
    (stageScholar env spk u res0 tr).1.id = res0.id := by
  unfold stageScholar
  split
  · rw [idSug]
  · split
    · rfl
    · rw [idSug]

theorem idScop (env : ConnEnv) (sk spk u : Option String) (res0 : RRes) (tr : List Conn) :
    (stageScopus env sk spk u res0 tr).1.id = res0.id := by
  unfold stageScopus
  split
  · split
    · rfl
    · rw [idSch]
  · rw [idSch]

theorem idCrT (env : ConnEnv) (sk spk u : Option String) (res0 : RRes) (tr : List Conn) :
    (stageCrText env sk spk u res0 tr).1.id = res0.id := by
  unfold stageCrText
  split
  · rfl
  · rw [idScop]

theorem idCrD (env : ConnEnv) (d sk spk u : Option String) (res0 : RRes) (tr : List Conn) :
    (stageCrDoi env d sk spk u res0 tr).1.id = res0.id := by
  unfold stageCrDoi
  split
  · split
    · rfl
    · rw [idCrT]
  · rw [idCrT]

/-- Every branch of the orchestrator preserves the id it was started with. -/
theorem idCheck (idx : Nat) (raw : PRef) (lit : String → Option PyVal) (ldb : Bool)
    (sk spk : Option String) (env : ConnEnv) :
    (check_single_task idx raw lit ldb sk spk env).1.id = idx := by
  show (checkCore idx (refine_parsed_data lit raw) ldb sk spk env).1.id = idx
  simp only [checkCore]
  repeat' split
  all_goals first | rfl | rw [idCrD]

theorem sorted_le_range' : ∀ (n s : Nat), List.Sorted (· ≤ ·) (List.range' s n)
  | 0, _ => by simp
  | n + 1, s => by
      rw [List.range']
      refine List.sorted_cons.mpr ⟨?_, sorted_le_range' n (s + 1)⟩
      intro b hb
      have := (List.mem_range'_1.mp hb).1
      omega

/-- C7 (confirmed): for every input list of parsed references and every
completion order of the concurrent workers (any permutation `buffer` of the
workers' results), the batch loop yields exactly one result per input and,
after sorting by id, `result[i].id = i + 1` for every index — a 1-based,
permutation-free sequence matching input order. -/
theorem C7_order_stability (lit : String → Option PyVal) (ldb : Bool) (sk spk : Option String)
    (envs : Nat → ConnEnv) (refs : List PRef) (buffer : List RRes)
    (hperm : buffer.Perm (run_batch lit ldb sk spk envs refs)) :
    (sortResults buffer).length = refs.length ∧
    ∀ i (h : i < (sortResults buffer).length), ((sortResults buffer).get ⟨i, h⟩).id = i + 1 := by
  have hids : (run_batch lit ldb sk spk envs refs).map (fun r => r.id) =
      List.range' 1 refs.length := by
    unfold run_batch
    rw [List.map_map]
    have hfun : ((fun r : RRes => r.id) ∘ fun p : Nat × PRef =>
        (check_single_task p.1 p.2 lit ldb sk spk (envs p.1)).1) = fun p : Nat × PRef => p.1 := by
      funext p
      exact idCheck p.1 p.2 lit ldb sk spk (envs p.1)
    rw [hfun]
    have hmf := List.map_fst_zip (List.range' 1 refs.length) refs (by simp)
    simpa [Prod.fst] using hmf
  have hsortperm : (sortResults buffer).Perm (run_batch lit ldb sk spk envs refs) :=
    (List.perm_insertionSort idLe buffer).trans hperm
  have hidsperm : ((sortResults buffer).map (fun r => r.id)).Perm (List.range' 1 refs.length) := by
    rw [← hids]
    exact hsortperm.map _
  have hsorted : List.Sorted (· ≤ ·) ((sortResults buffer).map (fun r => r.id)) := by
    have hs := List.sorted_insertionSort idLe buffer
    exact List.Pairwise.map _ (fun a b hab => hab) hs
  have heq : (sortResults buffer).map (fun r => r.id) = List.range' 1 refs.length :=
    List.eq_of_perm_of_sorted hidsperm hsorted (sorted_le_range' _ _)
  have hlen : (sortResults buffer).length = refs.length := by
    have := congrArg List.length heq
    simpa using this
  refine ⟨hlen, ?_⟩
  intro i h
  have hm : i < ((sortResults buffer).map (fun r => r.id)).length := by simpa using h
  have hr : i < (List.range' 1 refs.length).length := by
    rw [← heq]
    exact hm
  have step1 : ((sortResults buffer).map (fun r => r.id)).get ⟨i, hm⟩ =
      ((sortResults buffer).get ⟨i, h⟩).id := by
    simp
  have step2 : ((sortResults buffer).map (fun r => r.id)).get ⟨i, hm⟩ =
      (List.range' 1 refs.length).get ⟨i, hr⟩ := List.get_of_eq heq ⟨i, hm⟩
  have step3 : (List.range' 1 refs.length).get ⟨i, hr⟩ = 1 + i := by
    rw [List.get_eq_getElem]
    exact List.getElem_range'_1 i hr
  rw [← step1, step2, step3, Nat.add_comm]

/-- C7 (witness): the theorem applied at a concrete two-reference batch whose
buffer arrives in reversed completion order. -/
theorem C7_order_stability_witness :
    ((run_batch (fun _ => none) false none none (fun _ => ({} : ConnEnv))
        [{ text := "a" }, { text := "b" }]).reverse.Perm
      (run_batch (fun _ => none) false none none (fun _ => ({} : ConnEnv))
        [{ text := "a" }, { text := "b" }])) ∧
    ((sortResults (run_batch (fun _ => none) false none none (fun _ => ({} : ConnEnv))
        [{ text := "a" }, { text := "b" }]).reverse).length =
      ([{ text := "a" }, { text := "b" }] : List PRef).length ∧
     ∀ i (h : i < (sortResults (run_batch (fun _ => none) false none none
        (fun _ => ({} : ConnEnv)) [{ text := "a" }, { text := "b" }]).reverse).length),
       ((sortResults (run_batch (fun _ => none) false none none (fun _ => ({} : ConnEnv))
          [{ text := "a" }, { text := "b" }]).reverse).get ⟨i, h⟩).id = i + 1) :=
  ⟨List.reverse_perm _,
   C7_order_stability (fun _ => none) false none none (fun _ => ({} : ConnEnv))
     [{ text := "a" }, { text := "b" }] _ (List.reverse_perm _)⟩
